import Mathlib

/-!
Verification of the NotionAutomater marketing-request pipeline.

The Python sources (`MarketingAPI.py`, `NotionAPI.py`, `SlackFlask.py`,
`SlackInterconnect.py`, `main.py`) are embedded shallowly: JSON-shaped Python
values become the inductive `JVal`, `datetime` dates become `PyDate`,
fallible Python code (code that can raise) returns `Except Unit _`, and the
`None`-able fields of the `MarketingRequest` dataclass become `Option`s.
Each definition carries a comment pointing at the Python code it embeds.
-/

/-- A Python value of the JSON-shaped data handled by the pipeline
(the Notion API responses are `response.json()` output, so dictionary keys
are strings; numbers are modelled as integers, which is enough because the
pipeline never does arithmetic on them). `JVal.none` is Python `None`. -/
inductive JVal where
  | none
  | bool (b : Bool)
  | num (n : Int)
  | str (s : String)
  | list (items : List JVal)
  | dict (entries : List (String × JVal))

/-- Python `d.get(key)` on a dict `d`: the first binding for `key`, if any
(JSON objects have unique keys). -/
def pyGet (entries : List (String × JVal)) (key : String) : Option JVal :=
  (entries.find? (fun p => p.1 == key)).map (fun p => p.2)

/-- View a `JVal` as a Python dict, when it is one. -/
def jDict? : JVal → Option (List (String × JVal))
  | JVal.dict entries => some entries
  | _ => Option.none

/-- Python truthiness of a `JVal` (`bool(v)`). -/
def truthy : JVal → Bool
  | JVal.none => false
  | JVal.bool b => b
  | JVal.num n => n != 0
  | JVal.str s => !s.isEmpty
  | JVal.list items => !items.isEmpty
  | JVal.dict entries => !entries.isEmpty

/-- Python list indexing `v[i]`, defined on `JVal` lists. Indexing a
non-list (or out of range) raises in Python; every raise on the post-date
lookup chain of `from_notion_page` is caught by its `except` block, so the
failure is modelled as `Option.none`. (Python can also index strings, but a
string index yields a string again, which has no `.get`, so such chains also
end in the `except` block.) -/
def pyIndex : JVal → Nat → Option JVal
  | JVal.list items, i => items.get? i
  | _, _ => Option.none

/-- Python `v.get(key)` at the end of the post-date lookup chain: a dict
lookup; calling `.get` on a non-dict raises (caught by the `except` block),
and a dict missing the key returns `None` — both outcomes lead to the
fallback date, so both are modelled as `Option.none`. -/
def pyDictGet? : JVal → String → Option JVal
  | JVal.dict entries, key => pyGet entries key
  | _, _ => Option.none

/-- A Python `datetime` as produced by this pipeline: `datetime.fromisoformat`
of a Notion `start_date` string (date only, midnight) or the fixed fallback
`datetime(2024, 9, 1)`. Only the calendar date is relevant. -/
structure PyDate where
  year : Nat
  month : Nat
  day : Nat
deriving DecidableEq, Repr

/-- The fixed fallback date `datetime(2024, 9, 1)` of `MarketingAPI.py`. -/
def fallbackDate : PyDate := ⟨2024, 9, 1⟩

/-- Python `datetime` comparison `a < b`, restricted to the dates this
pipeline builds (all at midnight): lexicographic on (year, month, day). -/
def dateLtB (a b : PyDate) : Bool :=
  decide (a.year < b.year ∨ (a.year = b.year ∧ (a.month < b.month ∨
    (a.month = b.month ∧ a.day < b.day))))

/-- Gregorian leap years, as validated by Python's `datetime`. -/
def isLeapYear (y : Nat) : Bool :=
  (y % 4 == 0 && y % 100 != 0) || y % 400 == 0

/-- Days in a month, as validated by Python's `datetime`. -/
def daysInMonth (y m : Nat) : Nat :=
  if m == 2 then (if isLeapYear y then 29 else 28)
  else if m == 4 || m == 6 || m == 9 || m == 11 then 30
  else 31

/-- Modelled from the Python standard library: `datetime.fromisoformat`
restricted to plain `YYYY-MM-DD` date strings (the shape of Notion
`start_date` values, per the example in `MarketingAPI.py`). Any other
input is treated as a parse failure; in `from_notion_page` a parse failure
raises and is caught, yielding the fallback date. -/
def dateFromIso (s : String) : Option PyDate :=
  match s.toList with
  | [y1, y2, y3, y4, h1, m1, m2, h2, d1, d2] =>
    if y1.isDigit && y2.isDigit && y3.isDigit && y4.isDigit && h1 == '-' &&
       m1.isDigit && m2.isDigit && h2 == '-' && d1.isDigit && d2.isDigit then
      let y := (y1.toNat - 48) * 1000 + (y2.toNat - 48) * 100 +
               (y3.toNat - 48) * 10 + (y4.toNat - 48)
      let m := (m1.toNat - 48) * 10 + (m2.toNat - 48)
      let d := (d1.toNat - 48) * 10 + (d2.toNat - 48)
      if 1 ≤ y && 1 ≤ m && m ≤ 12 && 1 ≤ d && d ≤ daysInMonth y m then
        some ⟨y, m, d⟩
      else Option.none
    else Option.none
  | _ => Option.none

/-- `STATUS_ORDER` of `MarketingAPI.py`: the fixed status enumeration with
its numeric ranks. -/
def STATUS_ORDER : List (String × Nat) :=
  [("Not Started", 0), ("Need Visuals", 1), ("Drafted", 2),
   ("Confirmed", 3), ("Posted", 4)]

/-- `STATUS_ORDER.get(self.status, float('inf'))` of `_sort_key`:
`Option.none` models `float('inf')` (status missing or not a key of
`STATUS_ORDER`). Non-string statuses are never keys of `STATUS_ORDER`;
note that Python raises `TypeError` when the status is unhashable
(a list or a dict) — see `statusHashable`. -/
def statusRank (status : Option JVal) : Option Nat :=
  match status with
  | some (JVal.str s) => (STATUS_ORDER.find? (fun p => p.1 == s)).map (fun p => p.2)
  | _ => Option.none

/-- Statuses on which Python's `STATUS_ORDER.get` does not raise: everything
except unhashable values (lists and dicts). -/
def statusHashable : Option JVal → Bool
  | some (JVal.list _) => false
  | some (JVal.dict _) => false
  | _ => true

/-- Comparison of status ranks, with `Option.none` as `float('inf')`:
`some a < some b ↔ a < b`, any finite rank `< inf`, and `inf < nothing`. -/
def rankLtB : Option Nat → Option Nat → Bool
  | some a, some b => decide (a < b)
  | some _, Option.none => true
  | Option.none, _ => false

/-- Python tuple comparison `<` on the `(status rank, date)` sort keys built
by `_sort_key`: lexicographic, with equality on the first component tested
by Python `==` (`inf == inf` holds). -/
def sortKeyLt (a b : Option Nat × PyDate) : Bool :=
  rankLtB a.1 b.1 || (a.1 == b.1 && dateLtB a.2 b.2)

/-- A sort key flattened to five naturals (is-infinite tag, finite rank,
year, month, day), so that key-order facts become linear arithmetic. -/
structure KeyVec where
  tag : Nat
  rank : Nat
  y : Nat
  m : Nat
  d : Nat

/-- Flatten a sort key to its `KeyVec`. -/
def keyVec (k : Option Nat × PyDate) : KeyVec :=
  ⟨(match k.1 with | some _ => 0 | Option.none => 1), k.1.getD 0,
   k.2.year, k.2.month, k.2.day⟩

/-- Strict lexicographic order on flattened sort keys. -/
def vecLt (v w : KeyVec) : Prop :=
  v.tag < w.tag ∨ (v.tag = w.tag ∧ (v.rank < w.rank ∨ (v.rank = w.rank ∧
    (v.y < w.y ∨ (v.y = w.y ∧ (v.m < w.m ∨ (v.m = w.m ∧ v.d < w.d)))))))

/-- The `MarketingRequest` dataclass of `MarketingAPI.py`. Field types
follow what `from_notion_page` can actually store: `get_first` returns the
raw first element of a list-of-lists property, so the optional scalar
fields hold arbitrary `JVal`s. -/
structure MarketingRequest where
  id : Option JVal
  title : JVal
  event : Option JVal
  content_type : Option JVal
  status : Option JVal
  content_summary : Option JVal
  post_date : Option PyDate
  final_post : Option JVal
  visuals : Option JVal

/-- `get_first` of `MarketingRequest.from_notion_page`: the first value of
a property key when the property is a non-empty list whose first element is
a non-empty list, else `None`. (The Python guard `val and isinstance(val,
list) and len(val) > 0` is equivalent to the value being a non-empty list,
since a non-empty list is truthy.) -/
def get_first (properties : List (String × JVal)) (prop_key : String) : Option JVal :=
  match pyGet properties prop_key with
  | some (JVal.list (JVal.list (x :: _) :: _)) => some x
  | _ => Option.none

/-- Python `x or ""` applied to an optional property value, as in
`title = get_first("title") or ""`. -/
def pyOrEmptyStr (v : Option JVal) : JVal :=
  match v with
  | some x => if truthy x then x else JVal.str ""
  | Option.none => JVal.str ""

/-- The key of the post-date rollup property (`"{Rrz"` in the source; the
opening brace is written escaped). -/
def postDateKey : String := "\x7bRrz"

/-- The post-date lookup chain
`properties["{Rrz"][0][1][0][1].get("start_date")` of `from_notion_page`;
`Option.none` when any step raises (caught by the `except` block) or the
final dict has no `start_date`. -/
def extract_start_date (properties : List (String × JVal)) : Option JVal := do
  let v ← pyGet properties postDateKey
  let a ← pyIndex v 0
  let b ← pyIndex a 1
  let c ← pyIndex b 0
  let d ← pyIndex c 1
  pyDictGet? d "start_date"

/-- The post-date computation of `from_notion_page`: if the rollup key is
present, read the nested `start_date`; a truthy string is parsed with
`fromisoformat` (a parse failure raises and is caught, giving the fallback
date); a falsy or missing value gives the fallback date; `fromisoformat` on
a truthy non-string raises `TypeError` and is caught, giving the fallback
date. If the key is absent, the fallback date is used directly. -/
def compute_post_date (properties : List (String × JVal)) : PyDate :=
  if (pyGet properties postDateKey).isSome then
    match extract_start_date properties with
    | some date_str =>
      if truthy date_str then
        match date_str with
        | JVal.str s =>
          match dateFromIso s with
          | some d => d
          | Option.none => fallbackDate
        | _ => fallbackDate
      else fallbackDate
    | Option.none => fallbackDate
  else fallbackDate

/-- The successful-parse view of the post-date path: `some d` exactly when
the nested `start_date` is a truthy string that `fromisoformat` accepts. -/
def parsedPostDate (properties : List (String × JVal)) : Option PyDate :=
  match extract_start_date properties with
  | some (JVal.str s) => if truthy (JVal.str s) then dateFromIso s else Option.none
  | _ => Option.none

/-- `properties = page.get("properties", {})` of `from_notion_page`. -/
def pagePropsVal (pageD : List (String × JVal)) : JVal :=
  (pyGet pageD "properties").getD (JVal.dict [])

/-- `MarketingRequest.from_notion_page`. The only uncaught raise points are
`page.get` on a non-dict page and `properties.get` on a non-dict
`properties` value (the `get_first("title")` call always runs), modelled as
`Except.error ()`. `final_post` and `visuals` are never assigned by the
constructor call and keep their dataclass default `None`. -/
def from_notion_page (page : JVal) : Except Unit MarketingRequest :=
  match jDict? page with
  | Option.none => Except.error ()
  | some pageD =>
    match jDict? (pagePropsVal pageD) with
    | Option.none => Except.error ()
    | some properties =>
      Except.ok
        { id := pyGet pageD "id"
          title := pyOrEmptyStr (get_first properties "title")
          event := get_first properties ">zXz"
          content_type := get_first properties "aJ@j"
          status := get_first properties "nSLy"
          content_summary := get_first properties "[B|e"
          post_date := some (compute_post_date properties)
          final_post := Option.none
          visuals := Option.none }

/-- `MarketingRequest._sort_key`: the pair (status rank with `inf` for
unranked, post date with the fallback date for `None`). -/
def MarketingRequest._sort_key (r : MarketingRequest) : Option Nat × PyDate :=
  (statusRank r.status, r.post_date.getD fallbackDate)

/-- `MarketingRequest.__lt__`: comparison of the derived sort keys. -/
def MarketingRequest.py_lt (a b : MarketingRequest) : Bool :=
  sortKeyLt (MarketingRequest._sort_key a) (MarketingRequest._sort_key b)

/-- The order used by `requests.sort()`: `a` may be placed before `b` iff
`not (b < a)`. Python's `list.sort` is a stable sort with respect to this
total preorder, and a stable sort is uniquely determined by it, so
insertion sort with this order (which is also stable) computes exactly the
Python result. -/
def pyLe (a b : MarketingRequest) : Prop :=
  MarketingRequest.py_lt b a = false

instance : DecidableRel pyLe := fun a b =>
  inferInstanceAs (Decidable (MarketingRequest.py_lt b a = false))

/-- The `MarketingRequestCollection` ADT of `MarketingAPI.py`. -/
structure MarketingRequestCollection where
  requests : List MarketingRequest

/-- The per-block body of `from_record_map`: `block_data.get("value", {})`
(raising on a non-dict block, modelled as `Except.error`), then
`MarketingRequest.from_notion_page` on each block value, in dict order. -/
def buildRequests : List (String × JVal) → Except Unit (List MarketingRequest)
  | [] => Except.ok []
  | kv :: rest =>
    match jDict? kv.2 with
    | Option.none => Except.error ()
    | some blockD =>
      match from_notion_page ((pyGet blockD "value").getD (JVal.dict [])) with
      | Except.error e => Except.error e
      | Except.ok req =>
        match buildRequests rest with
        | Except.error e => Except.error e
        | Except.ok reqs => Except.ok (req :: reqs)

/-- `MarketingRequestCollection.from_record_map`: drill into
`recordMap.block`, map every block value through `from_notion_page`, then
`requests.sort()`. -/
def from_record_map (record_map : List (String × JVal)) : Except Unit MarketingRequestCollection :=
  match jDict? ((pyGet record_map "recordMap").getD (JVal.dict [])) with
  | Option.none => Except.error ()
  | some recordMapD =>
    match jDict? ((pyGet recordMapD "block").getD (JVal.dict [])) with
    | Option.none => Except.error ()
    | some blocks =>
      match buildRequests blocks with
      | Except.error e => Except.error e
      | Except.ok requests => Except.ok ⟨List.insertionSort pyLe requests⟩

/-- Python `key(req) == val` as used by `_fetch`, where `val` is the string
argument of the fetch methods: Python `==` between a string and `None` or
any non-string value is `False`. -/
def pyEqStr : Option JVal → String → Bool
  | some (JVal.str t), s => t == s
  | _, _ => false

/-- `MarketingRequestCollection._fetch`. -/
def MarketingRequestCollection._fetch (c : MarketingRequestCollection)
    (val : String) (key : MarketingRequest → Option JVal) : List MarketingRequest :=
  c.requests.filter (fun req => pyEqStr (key req) val)

/-- `MarketingRequestCollection.fetch_requests_by_status`. -/
def MarketingRequestCollection.fetch_requests_by_status
    (c : MarketingRequestCollection) (status : String) : List MarketingRequest :=
  c._fetch status (fun req => req.status)

/-- `MarketingRequestCollection.fetch_requests_by_type`. -/
def MarketingRequestCollection.fetch_requests_by_type
    (c : MarketingRequestCollection) (content_type : String) : List MarketingRequest :=
  c._fetch content_type (fun req => req.content_type)

/-- Modelled from the spec: `filter_by_criterion` is invoked on the
collection by `SlackFlask.generate_weekly_posting_schedule` and
`SlackInterconnect.generate_posting_schedule` with two predicate arguments,
but no definition of it appears in `MarketingAPI.py`. The spec describes
the operation as "filter-by-arbitrary-predicates (one or more predicates,
all must hold)", returning the matching requests as a list (the callers
sort the returned list). -/
def MarketingRequestCollection.filter_by_criterion
    (c : MarketingRequestCollection)
    (criteria : List (MarketingRequest → Bool)) : List MarketingRequest :=
  c.requests.filter (fun req => criteria.all (fun crit => crit req))

/-- An HTTP response as seen by `SlackInterconnect.send_slack_webhook_message`
(`requests.Response`, reduced to the two fields the function reads). -/
structure HttpResponse where
  status_code : Nat
  text : String
deriving DecidableEq, Repr

/-- The webhook payload `{text, username, icon_emoji, mrkdwn}` built by
`send_slack_webhook_message`. -/
structure SlackPayload where
  text : String
  username : String
  icon_emoji : String
  mrkdwn : Bool
deriving DecidableEq, Repr

/-- `SlackInterconnect.send_slack_webhook_message`. The network transport
`requests.post(webhook_url, json=payload)` is an external collaborator and
is passed in as the function `postFn`; a non-200 response raises (modelled
as `Except.error` carrying the exception message), a 200 response is
returned. -/
def send_slack_webhook_message (postFn : String → SlackPayload → HttpResponse)
    (webhook_url : String) (message : String) (username : String)
    (icon_emoji : String) (markdown : Bool) : Except String HttpResponse :=
  let payload : SlackPayload := ⟨message, username, icon_emoji, markdown⟩
  let response := postFn webhook_url payload
  if response.status_code ≠ 200 then
    Except.error ("Request to Slack returned an error " ++
      toString response.status_code ++ ", the response is:\n" ++ response.text)
  else
    Except.ok response

/-- One iteration of the `while True` body of `SlackFlask.fetch_notion_data`:
`notion_data = notion_api.query_marketing_requests()` inside
`try/except` — on success the global cache is replaced by the new
collection, on an exception the handler only prints and the cache keeps its
previous value. -/
def pollCycle (prev : Option MarketingRequestCollection)
    (result : Except String MarketingRequestCollection) :
    Option MarketingRequestCollection :=
  match result with
  | Except.ok c => some c
  | Except.error _ => prev

/-- The `while True` polling loop of `SlackFlask.fetch_notion_data`, run
over a finite prefix of the (infinite) stream of query outcomes: the value
of the global `notion_data` cache after those cycles. The loop body never
re-raises, so every listed cycle is processed. -/
def fetch_notion_data (init : Option MarketingRequestCollection)
    (results : List (Except String MarketingRequestCollection)) :
    Option MarketingRequestCollection :=
  results.foldl pollCycle init

/-- Read a field of the request a `from_notion_page` call produced;
`Option.none` when the call raised. -/
def okMap {α : Type} (f : MarketingRequest → α) :
    Except Unit MarketingRequest → Option α
  | Except.ok r => some (f r)
  | Except.error _ => Option.none

/-- The expected non-empty list-of-lists shape of a scalar property value,
as checked by `get_first`. -/
def wellShaped : Option JVal → Bool
  | some (JVal.list (JVal.list (_ :: _) :: _)) => true
  | _ => false

/-- The title property is missing, empty or malformed: `get_first` finds
nothing for `"title"`, or the value it finds is falsy. -/
def falsyTitle (properties : List (String × JVal)) : Bool :=
  match get_first properties "title" with
  | some v => !truthy v
  | Option.none => true

/-- In the order of a collection, a ranked status never comes after an
unranked one: if `a` is placed before `b` and `a` is unranked, `b` is
unranked too. -/
def rankedBeforeUnranked (a b : MarketingRequest) : Prop :=
  ¬(statusRank a.status = Option.none ∧ statusRank b.status ≠ Option.none)

/-- In the order of a collection, a present post date never comes after a
missing one: if `a` is placed before `b` and `a`'s date is missing, `b`'s
date is missing too. -/
def presentBeforeMissing (a b : MarketingRequest) : Prop :=
  ¬(a.post_date = Option.none ∧ b.post_date ≠ Option.none)

/-- A bare request with the given status and post date (remaining fields as
`from_notion_page` defaults them), for concrete instantiations. -/
def mkReq (status : Option JVal) (post_date : Option PyDate) : MarketingRequest :=
  ⟨Option.none, JVal.str "", Option.none, Option.none, status, Option.none,
   post_date, Option.none, Option.none⟩

/-- A request with an unranked status and no post date. -/
def reqUnrankedEx : MarketingRequest := mkReq (some (JVal.str "Zzz")) Option.none

/-- A request with the ranked status `"Posted"`. -/
def reqRankedEx : MarketingRequest :=
  mkReq (some (JVal.str "Posted")) (some ⟨2025, 1, 1⟩)

/-- A `"Confirmed"` request dated 2024-01-01. -/
def reqEarlyEx : MarketingRequest :=
  mkReq (some (JVal.str "Confirmed")) (some ⟨2024, 1, 1⟩)

/-- A `"Confirmed"` request dated 2024-05-01. -/
def reqLateEx : MarketingRequest :=
  mkReq (some (JVal.str "Confirmed")) (some ⟨2024, 5, 1⟩)

/-- A raw page whose properties dict is empty: every scalar key is absent
and the post-date key is absent. -/
def pageDEmpty : List (String × JVal) := [("properties", JVal.dict [])]

/-- The `JVal` form of `pageDEmpty`. -/
def pageEmpty : JVal := JVal.dict pageDEmpty

/-- A raw page with status `"Posted"` and a well-formed post-date rollup
carrying `start_date` 2025-02-03 (the example structure documented in
`from_notion_page`). -/
def pagePostedEx : JVal := JVal.dict
  [("properties", JVal.dict
    [("nSLy", JVal.list [JVal.list [JVal.str "Posted"]]),
     ("\x7bRrz", JVal.list [JVal.list [JVal.str "x",
        JVal.list [JVal.list [JVal.str "d",
          JVal.dict [("start_date", JVal.str "2025-02-03")]]]]])])]

/-- A raw page with status `"Not Started"` and no post-date property. -/
def pageNotStartedEx : JVal := JVal.dict
  [("properties", JVal.dict
    [("nSLy", JVal.list [JVal.list [JVal.str "Not Started"]])])]

/-- The request `from_notion_page` maps `pagePostedEx` to. -/
def reqPostedEx : MarketingRequest :=
  mkReq (some (JVal.str "Posted")) (some ⟨2025, 2, 3⟩)

/-- The request `from_notion_page` maps `pageNotStartedEx` to (absent date
path, hence the fallback date). -/
def reqNotStartedEx : MarketingRequest :=
  mkReq (some (JVal.str "Not Started")) (some fallbackDate)

/-- A record map holding the two example pages as blocks. -/
def rmEx : List (String × JVal) :=
  [("recordMap", JVal.dict
    [("block", JVal.dict
      [("b1", JVal.dict [("value", pagePostedEx)]),
       ("b2", JVal.dict [("value", pageNotStartedEx)])])])]

/-- The collection `from_record_map` builds from `rmEx` (sorted: the
`"Not Started"` request ranks before the `"Posted"` one). -/
def cEx : MarketingRequestCollection := ⟨[reqNotStartedEx, reqPostedEx]⟩

/-- Predicates as passed to `filter_by_criterion` by the schedule
generators (a status check and a date check). -/
def critsEx : List (MarketingRequest → Bool) :=
  [fun req => pyEqStr req.status "Not Started",
   fun req => req.post_date == some fallbackDate]

/-- A transport stub whose response is an HTTP 500. -/
def postEx : String → SlackPayload → HttpResponse :=
  fun _ _ => ⟨500, "Server Error"⟩

/-- The raw page exhibiting the status-invariant violation: a well-shaped
status property whose value is not a key of `STATUS_ORDER`. -/
def pageBogusStatus : JVal := JVal.dict
  [("properties", JVal.dict
    [("nSLy", JVal.list [JVal.list [JVal.str "Bogus"]])])]

/-- A raw page whose title property is present but empty. -/
def pageDTitleEmpty : List (String × JVal) :=
  [("properties", JVal.dict [("title", JVal.list [JVal.list [JVal.str ""]])])]

/-- The `JVal` form of `pageDTitleEmpty`. -/
def pageTitleEmpty : JVal := JVal.dict pageDTitleEmpty

/-- The request `from_notion_page` maps `pageTitleEmpty` to. -/
def reqTitleEmptyEx : MarketingRequest := mkReq Option.none (some fallbackDate)

theorem sortKeyLt_iff_vecLt (k1 k2 : Option Nat × PyDate) :
    sortKeyLt k1 k2 = true ↔ vecLt (keyVec k1) (keyVec k2) := by
  obtain ⟨r1, d1⟩ := k1
  obtain ⟨r2, d2⟩ := k2
  cases r1 <;> cases r2 <;>
    simp [sortKeyLt, rankLtB, dateLtB, keyVec, vecLt] <;> omega

theorem sortKeyLt_false_iff_not_vecLt (k1 k2 : Option Nat × PyDate) :
    sortKeyLt k1 k2 = false ↔ ¬ vecLt (keyVec k1) (keyVec k2) := by
  rw [← sortKeyLt_iff_vecLt, Bool.not_eq_true]

theorem pyLe_iff_not_vecLt (a b : MarketingRequest) :
    pyLe a b ↔ ¬ vecLt (keyVec (MarketingRequest._sort_key b))
      (keyVec (MarketingRequest._sort_key a)) :=
  sortKeyLt_false_iff_not_vecLt _ _

theorem pyLe_total (a b : MarketingRequest) : pyLe a b ∨ pyLe b a := by
  rw [pyLe_iff_not_vecLt, pyLe_iff_not_vecLt]
  unfold vecLt
  omega

theorem pyLe_trans (a b c : MarketingRequest) :
    pyLe a b → pyLe b c → pyLe a c := by
  rw [pyLe_iff_not_vecLt, pyLe_iff_not_vecLt, pyLe_iff_not_vecLt]
  unfold vecLt
  omega

theorem rankLtB_self_false (r : Option Nat) : rankLtB r r = false := by
  cases r <;> simp [rankLtB]

theorem from_notion_page_ok (page : JVal) (pageD properties : List (String × JVal))
    (hpage : jDict? page = some pageD)
    (hprops : jDict? (pagePropsVal pageD) = some properties) :
    from_notion_page page = Except.ok
      { id := pyGet pageD "id"
        title := pyOrEmptyStr (get_first properties "title")
        event := get_first properties ">zXz"
        content_type := get_first properties "aJ@j"
        status := get_first properties "nSLy"
        content_summary := get_first properties "[B|e"
        post_date := some (compute_post_date properties)
        final_post := Option.none
        visuals := Option.none } := by
  simp only [from_notion_page, hpage, hprops]

theorem from_notion_page_post_date_isSome (page : JVal) (r : MarketingRequest)
    (h : from_notion_page page = Except.ok r) : r.post_date.isSome = true := by
  unfold from_notion_page at h
  split at h
  · exact absurd h (by simp)
  · split at h
    · exact absurd h (by simp)
    · cases h
      rfl

theorem buildRequests_post_date_isSome (blocks : List (String × JVal)) :
    ∀ reqs, buildRequests blocks = Except.ok reqs →
      ∀ r ∈ reqs, r.post_date.isSome = true := by
  induction blocks with
  | nil =>
    intro reqs h r hr
    unfold buildRequests at h
    cases h
    simp at hr
  | cons kv rest ih =>
    intro reqs h r hr
    unfold buildRequests at h
    cases hD : jDict? kv.2 with
    | none =>
      simp only [hD] at h
      exact Except.noConfusion h
    | some blockD =>
      simp only [hD] at h
      cases hF : from_notion_page ((pyGet blockD "value").getD (JVal.dict [])) with
      | error e =>
        simp only [hF] at h
        exact Except.noConfusion h
      | ok req =>
        simp only [hF] at h
        cases hB : buildRequests rest with
        | error e =>
          simp only [hB] at h
          exact Except.noConfusion h
        | ok reqs2 =>
          simp only [hB] at h
          cases h
          rcases List.mem_cons.mp hr with h' | h'
          · subst h'
            exact from_notion_page_post_date_isSome _ _ hF
          · exact ih _ hB r h'

theorem pyEqStr_iff (v : Option JVal) (s : String) :
    pyEqStr v s = true ↔ v = some (JVal.str s) := by
  cases v with
  | none => simp [pyEqStr]
  | some x => cases x <;> simp [pyEqStr]

theorem get_first_none_of_not_wellShaped (properties : List (String × JVal))
    (k : String) (h : wellShaped (pyGet properties k) = false) :
    get_first properties k = Option.none := by
  unfold get_first
  split
  · next heq =>
    rw [heq] at h
    simp [wellShaped] at h
  · rfl

theorem pyOrEmptyStr_ne_none (v : Option JVal) : pyOrEmptyStr v ≠ JVal.none := by
  unfold pyOrEmptyStr
  cases v with
  | none => simp
  | some x =>
    by_cases ht : truthy x = true
    · simp only [ht, if_true]
      intro hEq
      rw [hEq] at ht
      simp [truthy] at ht
    · simp [ht]

theorem compute_post_date_fallback (properties : List (String × JVal))
    (hbad : pyGet properties postDateKey = Option.none ∨
      parsedPostDate properties = Option.none) :
    compute_post_date properties = fallbackDate := by
  unfold compute_post_date
  rcases hbad with h | h
  · rw [h]
    rfl
  · unfold parsedPostDate at h
    split
    · cases hE : extract_start_date properties with
      | none => simp [hE]
      | some v =>
        rw [hE] at h
        cases v <;> simp_all [truthy] <;> split <;> simp_all
    · rfl

theorem pyLe_imp_rankedBeforeUnranked (a b : MarketingRequest)
    (hab : pyLe a b) : rankedBeforeUnranked a b := by
  intro hcontra
  obtain ⟨h1, h2⟩ := hcontra
  cases hS : statusRank b.status with
  | none => exact absurd hS h2
  | some n =>
    unfold pyLe MarketingRequest.py_lt MarketingRequest._sort_key at hab
    rw [h1, hS] at hab
    simp [sortKeyLt, rankLtB] at hab

/-- C1: for every pair of `MarketingRequest` values (with statuses Python
can hash, so that `_sort_key` does not raise), the derived sort key orders
a request whose status is not in the fixed status enumeration after every
request whose status is ranked, and between two requests of equal status
rank the one with the earlier post date sorts first, where a missing
(`None`) post date is treated as the fixed fallback date 2024-09-01. -/
theorem C1_sort_key_ordering (a b : MarketingRequest)
    (ha : statusHashable a.status = true) (hb : statusHashable b.status = true) :
    (statusRank a.status = Option.none → statusRank b.status ≠ Option.none →
      MarketingRequest.py_lt b a = true) ∧
    (statusRank a.status = statusRank b.status →
      dateLtB (a.post_date.getD fallbackDate) (b.post_date.getD fallbackDate) = true →
      MarketingRequest.py_lt a b = true) := by
  constructor
  · intro h1 h2
    cases hS : statusRank b.status with
    | none => exact absurd hS h2
    | some n =>
      unfold MarketingRequest.py_lt MarketingRequest._sort_key
      rw [h1, hS]
      simp [sortKeyLt, rankLtB]
  · intro h1 h2
    unfold MarketingRequest.py_lt MarketingRequest._sort_key
    rw [h1]
    simp [sortKeyLt, rankLtB_self_false, h2]

/-- C1 witness: a `"Posted"` request sorts strictly before one with the
unranked status `"Zzz"`, and of two `"Confirmed"` requests the one dated
2024-01-01 sorts strictly before the one dated 2024-05-01. -/
theorem C1_sort_key_ordering_witness :
    MarketingRequest.py_lt reqRankedEx reqUnrankedEx = true ∧
    MarketingRequest.py_lt reqEarlyEx reqLateEx = true :=
  ⟨(C1_sort_key_ordering reqUnrankedEx reqRankedEx rfl rfl).1 rfl (by decide),
   (C1_sort_key_ordering reqEarlyEx reqLateEx rfl rfl).2 rfl (by decide)⟩

/-- C2: every collection `from_record_map` returns is pairwise ordered by
the derived sort key (status rank ascending, then post date ascending), a
request with missing or unranked status never precedes one with a ranked
status, and a request with a missing post date never precedes one whose
post date is present (`from_notion_page` in fact always assigns a post
date, so the last clause is vacuous on these collections). The hashability
hypothesis marks Python's domain: on a collection holding an unhashable
status, `requests.sort()` itself would raise. -/
theorem C2_from_record_map_sorted (record_map : List (String × JVal))
    (c : MarketingRequestCollection)
    (h : from_record_map record_map = Except.ok c)
    (hh : ∀ r ∈ c.requests, statusHashable r.status = true) :
    c.requests.Pairwise pyLe ∧ c.requests.Pairwise rankedBeforeUnranked ∧
      c.requests.Pairwise presentBeforeMissing := by
  unfold from_record_map at h
  cases hA : jDict? ((pyGet record_map "recordMap").getD (JVal.dict [])) with
  | none =>
    simp only [hA] at h
    exact Except.noConfusion h
  | some recordMapD =>
    simp only [hA] at h
    cases hB : jDict? ((pyGet recordMapD "block").getD (JVal.dict [])) with
    | none =>
      simp only [hB] at h
      exact Except.noConfusion h
    | some blocks =>
      simp only [hB] at h
      cases hC : buildRequests blocks with
      | error e =>
        simp only [hC] at h
        exact Except.noConfusion h
      | ok requests =>
        simp only [hC] at h
        cases h
        have hsorted : (List.insertionSort pyLe requests).Pairwise pyLe := by
          haveI : IsTotal MarketingRequest pyLe := ⟨pyLe_total⟩
          haveI : IsTrans MarketingRequest pyLe := ⟨fun a b c => pyLe_trans a b c⟩
          exact List.sorted_insertionSort pyLe requests
        have hmem : ∀ r ∈ List.insertionSort pyLe requests,
            r.post_date.isSome = true := by
          intro r hrm
          exact buildRequests_post_date_isSome blocks requests hC r
            (((List.perm_insertionSort pyLe requests).mem_iff).mp hrm)
        refine ⟨hsorted, hsorted.imp (fun hab => pyLe_imp_rankedBeforeUnranked _ _ hab), ?_⟩
        refine hsorted.imp_of_mem fun {a b} hma hmb _ => ?_
        intro hcontra
        obtain ⟨h1, _⟩ := hcontra
        have h2 := hmem a hma
        rw [h1] at h2
        simp at h2

/-- C2 witness: the two-page record map `rmEx` yields the collection
`cEx`, which satisfies all three ordering clauses. -/
theorem C2_from_record_map_sorted_witness :
    cEx.requests.Pairwise pyLe ∧ cEx.requests.Pairwise rankedBeforeUnranked ∧
      cEx.requests.Pairwise presentBeforeMissing :=
  C2_from_record_map_sorted rmEx cEx rfl (by decide)

/-- C3: on every page dict whose nested date path is missing, structurally
malformed, or carries no (parseable) start date, `from_notion_page`
succeeds and stores the fixed fallback date 2024-09-01 as the post date —
never an absent value. -/
theorem C3_missing_date_fallback (page : JVal)
    (pageD properties : List (String × JVal))
    (hpage : jDict? page = some pageD)
    (hprops : jDict? (pagePropsVal pageD) = some properties)
    (hbad : pyGet properties postDateKey = Option.none ∨
      parsedPostDate properties = Option.none) :
    okMap MarketingRequest.post_date (from_notion_page page) =
      some (some fallbackDate) := by
  rw [from_notion_page_ok page pageD properties hpage hprops]
  simp only [okMap]
  rw [compute_post_date_fallback properties hbad]

/-- C3 witness: the page with an empty properties dict (date key absent)
maps to a request carrying the fallback date. -/
theorem C3_missing_date_fallback_witness :
    okMap MarketingRequest.post_date (from_notion_page pageEmpty) =
      some (some fallbackDate) :=
  C3_missing_date_fallback pageEmpty pageDEmpty [] rfl rfl (Or.inl rfl)

/-- C4: on every page dict, `from_notion_page` raises no exception, and
whenever one of the fixed scalar property keys (event `">zXz"`, content
type `"aJ@j"`, status `"nSLy"`, content summary `"[B|e"`) is absent or not
of the expected non-empty list-of-lists shape, the corresponding field of
the resulting request is the absent value `None`. -/
theorem C4_malformed_scalar_defaults (page : JVal)
    (pageD properties : List (String × JVal))
    (hpage : jDict? page = some pageD)
    (hprops : jDict? (pagePropsVal pageD) = some properties) :
    (from_notion_page page).isOk = true ∧
    (wellShaped (pyGet properties ">zXz") = false →
      okMap MarketingRequest.event (from_notion_page page) = some Option.none) ∧
    (wellShaped (pyGet properties "aJ@j") = false →
      okMap MarketingRequest.content_type (from_notion_page page) = some Option.none) ∧
    (wellShaped (pyGet properties "nSLy") = false →
      okMap MarketingRequest.status (from_notion_page page) = some Option.none) ∧
    (wellShaped (pyGet properties "[B|e") = false →
      okMap MarketingRequest.content_summary (from_notion_page page) = some Option.none) := by
  have H := from_notion_page_ok page pageD properties hpage hprops
  rw [H]
  refine ⟨rfl, fun hw => ?_, fun hw => ?_, fun hw => ?_, fun hw => ?_⟩ <;>
    simp only [okMap] <;>
    rw [get_first_none_of_not_wellShaped properties _ hw]

/-- C4 witness: on the page with an empty properties dict every scalar key
is absent, `from_notion_page` succeeds, and all four scalar fields are
absent. -/
theorem C4_malformed_scalar_defaults_witness :
    (from_notion_page pageEmpty).isOk = true ∧
    okMap MarketingRequest.event (from_notion_page pageEmpty) = some Option.none ∧
    okMap MarketingRequest.content_type (from_notion_page pageEmpty) = some Option.none ∧
    okMap MarketingRequest.status (from_notion_page pageEmpty) = some Option.none ∧
    okMap MarketingRequest.content_summary (from_notion_page pageEmpty) = some Option.none :=
  ⟨(C4_malformed_scalar_defaults pageEmpty pageDEmpty [] rfl rfl).1,
   (C4_malformed_scalar_defaults pageEmpty pageDEmpty [] rfl rfl).2.1 rfl,
   (C4_malformed_scalar_defaults pageEmpty pageDEmpty [] rfl rfl).2.2.1 rfl,
   (C4_malformed_scalar_defaults pageEmpty pageDEmpty [] rfl rfl).2.2.2.1 rfl,
   (C4_malformed_scalar_defaults pageEmpty pageDEmpty [] rfl rfl).2.2.2.2 rfl⟩

/-- C5: `filter_by_criterion` (modelled from the spec, see its definition)
returns exactly the requests of the collection for which all of the given
predicates hold, as a sublist of the collection's requests. -/
theorem C5_filter_by_criterion_exact (c : MarketingRequestCollection)
    (criteria : List (MarketingRequest → Bool)) :
    (∀ r, r ∈ c.filter_by_criterion criteria ↔
      (r ∈ c.requests ∧ ∀ p ∈ criteria, p r = true)) ∧
    List.Sublist (c.filter_by_criterion criteria) c.requests := by
  unfold MarketingRequestCollection.filter_by_criterion
  refine ⟨fun r => ?_, List.filter_sublist _⟩
  rw [List.mem_filter, List.all_eq_true]

/-- C5 witness: in `cEx`, the `"Not Started"` request passes both example
predicates and is returned by `filter_by_criterion`. -/
theorem C5_filter_by_criterion_exact_witness :
    reqNotStartedEx ∈ cEx.filter_by_criterion critsEx :=
  ((C5_filter_by_criterion_exact cEx critsEx).1 reqNotStartedEx).mpr
    ⟨List.Mem.head _, by decide⟩

/-- C6: `fetch_requests_by_status` returns exactly the sub-list of
requests whose status field is the given string, under case-sensitive
exact string comparison (Python `==` between the status field and a
string). -/
theorem C6_fetch_requests_by_status_exact (c : MarketingRequestCollection)
    (status : String) :
    (∀ r, r ∈ c.fetch_requests_by_status status ↔
      (r ∈ c.requests ∧ r.status = some (JVal.str status))) ∧
    List.Sublist (c.fetch_requests_by_status status) c.requests := by
  unfold MarketingRequestCollection.fetch_requests_by_status
    MarketingRequestCollection._fetch
  refine ⟨fun r => ?_, List.filter_sublist _⟩
  rw [List.mem_filter, pyEqStr_iff]

/-- C6 witness: in `cEx`, the request whose status is exactly `"Posted"`
is returned when filtering by `"Posted"`. -/
theorem C6_fetch_requests_by_status_exact_witness :
    reqPostedEx ∈ cEx.fetch_requests_by_status "Posted" :=
  ((C6_fetch_requests_by_status_exact cEx "Posted").1 reqPostedEx).mpr
    ⟨List.Mem.tail _ (List.Mem.head _), rfl⟩

/-- C7: `send_slack_webhook_message` fails if and only if the webhook
response status code is not 200; on a non-200 response the raised error
message is the fixed text embedding the status code and the response body,
so it contains both; on a 200 response the response itself is returned. -/
theorem C7_webhook_error_iff (postFn : String → SlackPayload → HttpResponse)
    (url message username icon_emoji : String) (markdown : Bool) :
    ((∃ s, send_slack_webhook_message postFn url message username icon_emoji markdown =
        Except.error s) ↔
      (postFn url ⟨message, username, icon_emoji, markdown⟩).status_code ≠ 200) ∧
    ((postFn url ⟨message, username, icon_emoji, markdown⟩).status_code = 200 →
      send_slack_webhook_message postFn url message username icon_emoji markdown =
        Except.ok (postFn url ⟨message, username, icon_emoji, markdown⟩)) ∧
    ((postFn url ⟨message, username, icon_emoji, markdown⟩).status_code ≠ 200 →
      send_slack_webhook_message postFn url message username icon_emoji markdown =
        Except.error ("Request to Slack returned an error " ++
          toString (postFn url ⟨message, username, icon_emoji, markdown⟩).status_code ++
          ", the response is:\n" ++
          (postFn url ⟨message, username, icon_emoji, markdown⟩).text) ∧
      List.IsInfix
        (toString (postFn url ⟨message, username, icon_emoji, markdown⟩).status_code).data
        ("Request to Slack returned an error " ++
          toString (postFn url ⟨message, username, icon_emoji, markdown⟩).status_code ++
          ", the response is:\n" ++
          (postFn url ⟨message, username, icon_emoji, markdown⟩).text).data ∧
      List.IsInfix
        (postFn url ⟨message, username, icon_emoji, markdown⟩).text.data
        ("Request to Slack returned an error " ++
          toString (postFn url ⟨message, username, icon_emoji, markdown⟩).status_code ++
          ", the response is:\n" ++
          (postFn url ⟨message, username, icon_emoji, markdown⟩).text).data) := by
  unfold send_slack_webhook_message
  by_cases hc : (postFn url ⟨message, username, icon_emoji, markdown⟩).status_code = 200
  · refine ⟨?_, fun _ => by simp [hc], fun hn => absurd hc hn⟩
    simp only [hc]
    constructor
    · intro hex
      obtain ⟨s, hs⟩ := hex
      simp at hs
    · intro hn
      exact absurd rfl hn
  · refine ⟨?_, fun h200 => absurd h200 hc, fun _ => ?_⟩
    · simp only [if_neg]
      constructor
      · intro _
        exact hc
      · intro _
        exact ⟨"Request to Slack returned an error " ++
          toString (postFn url ⟨message, username, icon_emoji, markdown⟩).status_code ++
          ", the response is:\n" ++
          (postFn url ⟨message, username, icon_emoji, markdown⟩).text, by simp [hc]⟩
    · refine ⟨by simp [hc], ?_, ?_⟩
      · exact ⟨"Request to Slack returned an error ".data,
          (", the response is:\n" ++
            (postFn url ⟨message, username, icon_emoji, markdown⟩).text).data,
          by simp [String.data_append]⟩
      · exact ⟨("Request to Slack returned an error " ++
            toString (postFn url ⟨message, username, icon_emoji, markdown⟩).status_code ++
            ", the response is:\n").data, [],
          by simp [String.data_append]⟩

/-- C7 witness: with a transport stub answering HTTP 500 with body
`"Server Error"`, the call fails with the documented message, which
contains both the code and the body. -/
theorem C7_webhook_error_iff_witness :
    send_slack_webhook_message postEx "url" "msg" "Notifier" "robot" true =
      Except.error ("Request to Slack returned an error " ++
        toString (postEx "url" ⟨"msg", "Notifier", "robot", true⟩).status_code ++
        ", the response is:\n" ++
        (postEx "url" ⟨"msg", "Notifier", "robot", true⟩).text) ∧
    List.IsInfix
      (toString (postEx "url" ⟨"msg", "Notifier", "robot", true⟩).status_code).data
      ("Request to Slack returned an error " ++
        toString (postEx "url" ⟨"msg", "Notifier", "robot", true⟩).status_code ++
        ", the response is:\n" ++
        (postEx "url" ⟨"msg", "Notifier", "robot", true⟩).text).data ∧
    List.IsInfix
      (postEx "url" ⟨"msg", "Notifier", "robot", true⟩).text.data
      ("Request to Slack returned an error " ++
        toString (postEx "url" ⟨"msg", "Notifier", "robot", true⟩).status_code ++
        ", the response is:\n" ++
        (postEx "url" ⟨"msg", "Notifier", "robot", true⟩).text).data :=
  (C7_webhook_error_iff postEx "url" "msg" "Notifier" "robot" true).2.2 (by decide)

/-- C8: a poll cycle whose query raises leaves the published collection
reference unchanged — running the loop over the cycles with the failing
one inserted gives the same cache value as running it without, and the
failing cycle maps the previously published snapshot to itself — and the
loop goes on to process the remaining cycles. -/
theorem C8_poll_failure_retains_snapshot
    (init : Option MarketingRequestCollection)
    (pre post : List (Except String MarketingRequestCollection)) (e : String) :
    fetch_notion_data init (pre ++ Except.error e :: post) =
      fetch_notion_data init (pre ++ post) ∧
    pollCycle (fetch_notion_data init pre) (Except.error e) =
      fetch_notion_data init pre := by
  unfold fetch_notion_data
  constructor
  · rw [List.foldl_append, List.foldl_append]
    rfl
  · rfl

/-- C9: the status invariant fails on the code — `from_notion_page` maps
the page whose status property holds the string `"Bogus"` to a request
whose status is present but is not a key of `STATUS_ORDER` (its rank
defaults to infinity), contradicting the dataclass docstring's
representation invariant and the spec. -/
theorem C9_status_invariant_violated :
    okMap MarketingRequest.status (from_notion_page pageBogusStatus) =
      some (some (JVal.str "Bogus")) ∧
    ¬("Bogus" ∈ STATUS_ORDER.map Prod.fst) ∧
    statusRank (some (JVal.str "Bogus")) = Option.none :=
  ⟨rfl, by decide, rfl⟩

/-- C10: on every page dict, the title of the mapped request is never the
absent value, and whenever the title property is missing, empty or
malformed (`falsyTitle`), the title is the empty string. -/
theorem C10_title_default (page : JVal)
    (pageD properties : List (String × JVal))
    (hpage : jDict? page = some pageD)
    (hprops : jDict? (pagePropsVal pageD) = some properties) :
    (∀ r, from_notion_page page = Except.ok r → r.title ≠ JVal.none) ∧
    (falsyTitle properties = true →
      okMap MarketingRequest.title (from_notion_page page) = some (JVal.str "")) := by
  have H := from_notion_page_ok page pageD properties hpage hprops
  constructor
  · intro r hr
    rw [H] at hr
    cases hr
    exact pyOrEmptyStr_ne_none _
  · intro hf
    rw [H]
    simp only [okMap]
    unfold falsyTitle at hf
    cases hT : get_first properties "title" with
    | none => simp [pyOrEmptyStr, hT]
    | some v =>
      rw [hT] at hf
      simp at hf
      simp [pyOrEmptyStr, hT, hf]

/-- C10 witness: the page whose title property holds the empty string maps
to a request titled `""` (and that title is not `None`). -/
theorem C10_title_default_witness :
    reqTitleEmptyEx.title ≠ JVal.none ∧
    okMap MarketingRequest.title (from_notion_page pageTitleEmpty) =
      some (JVal.str "") :=
  ⟨(C10_title_default pageTitleEmpty pageDTitleEmpty
      [("title", JVal.list [JVal.list [JVal.str ""]])] rfl rfl).1
      reqTitleEmptyEx rfl,
   (C10_title_default pageTitleEmpty pageDTitleEmpty
      [("title", JVal.list [JVal.list [JVal.str ""]])] rfl rfl).2 rfl⟩
